import Mathlib

/-!
Verification development for `scripts/fetch-logseq-marketplace.js`.

The script is a one-shot pipeline: it fetches a catalog listing of package
directories, then for each `type == "dir"` entry fetches a manifest and commit
dates, optionally downloads and converts an icon, and finally serializes the
accumulated records with `JSON.stringify(results, null, 2)`.

The embedding is a shallow one: every network response is provided by an
oracle (`Env`), JavaScript values are the inductive `JsValue`, exceptions are
`Except JsError`, and filesystem writes and outgoing fetches are recorded as
an explicit `Effect` trace.  Each Lean definition mirrors the JavaScript
function of the same name.
-/

namespace LogseqMarketplace

/-- JavaScript values, as far as the script inspects them.  Numbers are
modelled as integers (the script never computes with fractional numbers; the
only numeric data it touches are JSON payload fields that are compared for
truthiness or stringified). -/
inductive JsValue where
  | null
  | undefined
  | bool (b : Bool)
  | num (n : Int)
  | str (s : String)
  | arr (elems : List JsValue)
  | obj (fields : List (String × JsValue))

/-- A JavaScript runtime exception (`TypeError` etc.); only the message is
tracked. -/
structure JsError where
  message : String

/-- JavaScript truthiness.  `null`, `undefined`, `false`, `0` and `""` are
falsy; every object and array is truthy. -/
def truthy : JsValue → Bool
  | .null => false
  | .undefined => false
  | .bool b => b
  | .num n => n != 0
  | .str s => s != ""
  | .arr _ => true
  | .obj _ => true

/-- Property lookup on an object field list; the last binding for a key wins
(mirroring how `JSON.parse` resolves duplicate keys). -/
def lookupLast : List (String × JsValue) → String → Option JsValue
  | [], _ => none
  | (k2, v2) :: rest, k =>
    match lookupLast rest k with
    | some r => some r
    | none => if k2 == k then some v2 else none

/-- Non-throwing property access: objects look the key up, any other
non-nullish value yields `undefined` (primitives have none of the properties
this script reads). -/
def jsGet (v : JsValue) (k : String) : JsValue :=
  match v with
  | .obj fields => (lookupLast fields k).getD .undefined
  | _ => .undefined

/-- Plain `.` property access: throws a `TypeError` on `null`/`undefined`,
otherwise behaves like `jsGet`. -/
def jsGetE (v : JsValue) (k : String) : Except JsError JsValue :=
  match v with
  | .null => .error ⟨"Cannot read properties of null"⟩
  | .undefined => .error ⟨"Cannot read properties of undefined"⟩
  | _ => .ok (jsGet v k)

/-- Optional chaining `v?.k`: short-circuits to `undefined` on a nullish
receiver instead of throwing. -/
def optChain (v : JsValue) (k : String) : JsValue :=
  match v with
  | .null => .undefined
  | .undefined => .undefined
  | _ => jsGet v k

/-- The JavaScript `||` operator. -/
def jsOr (a b : JsValue) : JsValue :=
  if truthy a then a else b

/-- `||` restricted to strings (used for `... .toLowerCase() || ".png"`):
the empty string is the only falsy string. -/
def strOr (a b : String) : String :=
  if a == "" then b else a

/-- Is the value `null` or `undefined`? -/
def isNullish : JsValue → Bool
  | .null => true
  | .undefined => true
  | _ => false

mutual

/-- Template-literal stringification (`String(v)`): arrays join their
elements with commas (nullish elements become empty), objects print as
`[object Object]`. -/
def toJsString : JsValue → String
  | .null => "null"
  | .undefined => "undefined"
  | .bool b => if b then "true" else "false"
  | .num n => toString n
  | .str s => s
  | .arr xs => toJsStringJoin xs
  | .obj _ => "[object Object]"

/-- `Array.prototype.join(",")` as used by `String(array)`. -/
def toJsStringJoin : List JsValue → String
  | [] => ""
  | v :: rest =>
    (match v with
     | .null => ""
     | .undefined => ""
     | w => toJsString w)
    ++ (if rest.isEmpty then "" else ",") ++ toJsStringJoin rest

end

/-- One hexadecimal digit, lower case. -/
def hexDigit (n : Nat) : String :=
  String.mk [("0123456789abcdef".toList.getD n '0')]

/-- `JSON.stringify` escaping of a single character inside a string
literal. -/
def escapeChar (c : Char) : String :=
  if c == '"' then "\\\""
  else if c == '\\' then "\\\\"
  else if c == '\x08' then "\\b"
  else if c == '\t' then "\\t"
  else if c == '\n' then "\\n"
  else if c == '\x0c' then "\\f"
  else if c == '\r' then "\\r"
  else if c.toNat < 32 then "\\u00" ++ hexDigit (c.toNat / 16) ++ hexDigit (c.toNat % 16)
  else String.mk [c]

/-- A JSON string literal with quotes and escapes. -/
def quoteJson (s : String) : String :=
  "\"" ++ String.join (s.toList.map escapeChar) ++ "\""

/-- Two spaces of indentation per depth level (`JSON.stringify(_, null, 2)`). -/
def jIndent (n : Nat) : String :=
  String.mk (List.replicate (2 * n) ' ')

mutual

/-- `JSON.stringify(v, null, 2)` at nesting depth `d`.  `undefined` at the
top of a position serializes to nothing (`none`): object members with
`undefined` values are dropped, array elements render as `null`. -/
def jsonStr : JsValue → Nat → Option String
  | .undefined, _ => none
  | .null, _ => some "null"
  | .bool b, _ => some (if b then "true" else "false")
  | .num n, _ => some (toString n)
  | .str s, _ => some (quoteJson s)
  | .arr xs, d =>
    some (match xs with
      | [] => "[]"
      | _ => "[" ++ jsonStrArr xs (d + 1) ++ "\n" ++ jIndent d ++ "]")
  | .obj fs, d =>
    some (match jsonStrObj fs (d + 1) with
      | [] => "\x7b\x7d"
      | parts => "\x7b" ++ String.intercalate "," parts ++ "\n" ++ jIndent d ++ "\x7d")

/-- Serialized array elements, each on its own indented line; `undefined`
elements become `null`. -/
def jsonStrArr : List JsValue → Nat → String
  | [], _ => ""
  | v :: rest, d =>
    "\n" ++ jIndent d ++ ((jsonStr v d).getD "null")
    ++ (if rest.isEmpty then "" else ",") ++ jsonStrArr rest d

/-- Serialized object members (members with `undefined` values dropped),
each as an indented `"key": value` line. -/
def jsonStrObj : List (String × JsValue) → Nat → List String
  | [], _ => []
  | (k, v) :: rest, d =>
    (match jsonStr v d with
     | none => []
     | some s => ["\n" ++ jIndent d ++ quoteJson k ++ ": " ++ s])
    ++ jsonStrObj rest d

end

/-! ## Environment: HTTP responses and filesystem state provided by an oracle -/

/-- A settled `fetch` response as the script observes it.  The body views
(`text`, `json`, `arrayBuffer`) are modelled as independent oracle results;
`none` means the corresponding body read rejects. -/
structure JsResponse where
  ok : Bool
  status : Nat
  statusText : String
  textResult : Option String
  jsonResult : Option JsValue
  bytesResult : Option (List Nat)

/-- Outcome of a `fetch` call: either the promise rejects (network error) or
a response is delivered. -/
inductive FetchOutcome where
  | throws
  | resp (r : JsResponse)

/-- The run's external world: every remote response, the preexisting
filesystem state, whether `sharp` can decode a given byte payload, and the
`--max` command-line cap. -/
structure Env where
  outputDirExists : Bool
  iconsDirExists : Bool
  maxItems : Option Nat
  catalogResponse : FetchOutcome
  manifestResponse : String → FetchOutcome
  commitsResponse : String → FetchOutcome
  iconResponse : String → FetchOutcome
  sharpOk : List Nat → Bool

/-- The `sharp(buffer).resize(32, 32).png()` pipeline output, recorded
symbolically: source bytes, target dimensions, and re-encoding as PNG. -/
structure SharpOutput where
  source : List Nat
  width : Nat
  height : Nat

/-- Observable side effects of a run: outgoing fetches and file writes, in
program order. -/
inductive Effect where
  | catalogFetch (url : String)
  | manifestFetch (url : String)
  | commitsFetch (url : String)
  | iconFetch (url : String)
  | mkdirIcons
  | writeSvgFile (path : String) (bytes : List Nat)
  | writePngFile (path : String) (image : SharpOutput)
  | writeOutput (path : String) (contents : String)

/-! ## Constants from the script -/

def OUTPUT_DIR : String := "src/data"

def OUTPUT_FILE : String := "logseq-marketplace-plugins.json"

def LOGSEQ_MARKETPLACE_PACKAGES_URL : String :=
  "https://api.github.com/repos/logseq/marketplace/contents/packages"

def COMMITS_API : String :=
  "https://api.github.com/repos/logseq/marketplace/commits?path=packages"

def RAW_LOGSEQ_MARKETPLACE_PACKAGES_URL : String :=
  "https://raw.githubusercontent.com/logseq/marketplace/master/packages"

def outputPath : String := OUTPUT_DIR ++ "/" ++ OUTPUT_FILE

/-- The icons directory: `path.resolve("public/icons")` (modelled relative to
the working directory). -/
def localIconDir : String := "public/icons"

/-- `getGithubHeaders()`: `Accept` always, `Authorization` only when a token
is present in the process environment. -/
def getGithubHeaders (githubToken : Option String) : List (String × String) :=
  [("Accept", "application/vnd.github.v3+json")] ++
    (match githubToken with
     | some t => [("Authorization", "token " ++ t)]
     | none => [])

/-! ## Catalog reader: `fetchPackages` -/

/-- The best-effort error body: `await res.text()` with the rejection
replaced by a placeholder string. -/
def catalogErrorBody (r : JsResponse) : String :=
  r.textResult.getD "(could not read error body)"

/-- The `console.error` message built on a non-OK catalog response. -/
def catalogErrorMessage (r : JsResponse) : String :=
  "Failed to fetch package list. Status: " ++ toString r.status ++ " "
    ++ r.statusText ++ ". Body: " ++ catalogErrorBody r

/-- Ways `fetchPackages` can fail: the fetch promise rejecting, an explicit
`throw new Error("Failed to fetch package list")` on a non-OK status (with
the logged message and the thrown message recorded), `res.json()` rejecting,
or the `data.length` access throwing on a `null` payload. -/
inductive CatalogError where
  | fetchThrew
  | notOk (loggedMessage : String) (thrownMessage : String)
  | jsonThrew
  | lengthAccessThrew

/-- `fetchPackages()`: one GET against the catalog URL; throws on non-OK
status after logging status/body; otherwise returns the parsed JSON
verbatim (the `data.length` log throws if the payload is `null`). -/
def fetchPackages (env : Env) : Except CatalogError JsValue × List Effect :=
  let effs := [Effect.catalogFetch LOGSEQ_MARKETPLACE_PACKAGES_URL]
  match env.catalogResponse with
  | .throws => (.error .fetchThrew, effs)
  | .resp r =>
    if r.ok = false then
      (.error (.notOk (catalogErrorMessage r) "Failed to fetch package list"), effs)
    else
      match r.jsonResult with
      | none => (.error .jsonThrew, effs)
      | some data =>
        match jsGetE data "length" with
        | .error _ => (.error .lengthAccessThrew, effs)
        | .ok _ => (.ok data, effs)

/-! ## Manifest fetcher: `fetchManifest` -/

def manifestUrl (packageName : String) : String :=
  RAW_LOGSEQ_MARKETPLACE_PACKAGES_URL ++ "/" ++ packageName ++ "/manifest.json"

/-- `fetchManifest(packageName)`: returns the parsed manifest, or `null` when
the response is not OK or anything in the try block throws (network error,
malformed JSON).  Never throws. -/
def fetchManifest (env : Env) (packageName : String) : JsValue × List Effect :=
  let manifest :=
    match env.manifestResponse packageName with
    | .throws => JsValue.null
    | .resp r =>
      if r.ok = false then JsValue.null
      else
        match r.jsonResult with
        | none => JsValue.null
        | some m => m
  (manifest, [Effect.manifestFetch (manifestUrl packageName)])

/-! ## History fetcher: `fetchCommitDates` -/

structure CommitDates where
  created_at : JsValue
  last_updated : JsValue

def emptyCommitDates : CommitDates := CommitDates.mk (.str "") (.str "")

def commitsUrl (packageName : String) : String :=
  COMMITS_API ++ "/" ++ packageName ++ "&per_page=100"

/-- `entry?.commit?.committer?.date` for one commit entry. -/
def committerDate (entry : JsValue) : JsValue :=
  optChain (optChain (optChain entry "commit") "committer") "date"

/-- `fetchCommitDates(packageName)`: both dates are empty strings on any
fetch failure, non-OK status, malformed JSON, non-array or empty payload;
otherwise `last_updated` comes from the first entry and `created_at` from
the last entry of the (newest-first) page, each defaulted to `""` when
falsy.  Never throws. -/
def fetchCommitDates (env : Env) (packageName : String) : CommitDates × List Effect :=
  let dates :=
    match env.commitsResponse packageName with
    | .throws => emptyCommitDates
    | .resp r =>
      if r.ok = false then emptyCommitDates
      else
        match r.jsonResult with
        | none => emptyCommitDates
        | some commits =>
          match commits with
          | .arr [] => emptyCommitDates
          | .arr (c :: cs) =>
            let last_updated := jsOr (committerDate c) (.str "")
            let created_at := jsOr (committerDate ((cs.getLast?).getD c)) (.str "")
            CommitDates.mk created_at last_updated
          | _ => emptyCommitDates
  (dates, [Effect.commitsFetch (commitsUrl packageName)])

/-! ## Icon materializer: `fetchAndStoreIcon` -/

/-- `getRemoteIconUrl(packageName, manifest)`: joins the raw-content base,
the package name and the (stringified) icon filename. -/
def getRemoteIconUrl (packageName : String) (manifest : JsValue) : String :=
  RAW_LOGSEQ_MARKETPLACE_PACKAGES_URL ++ "/" ++ packageName ++ "/"
    ++ toJsString (jsGet manifest "icon")

/-- Node's `path.extname` on POSIX paths: the substring of the basename from
its last `.` onward; empty when there is no dot, the dot is the basename's
first character, or the basename is `.` or `..`. -/
def extname (p : String) : String :=
  let base := (p.toList.reverse.takeWhile (fun c => c != '/')).reverse
  if base == ['.'] || base == ['.', '.'] then ""
  else
    let dotIdxs := (List.range base.length).filter (fun i => base.getD i ' ' == '.')
    match dotIdxs.getLast? with
    | none => ""
    | some 0 => ""
    | some i => String.mk (base.drop i)

/-- `String.prototype.toLowerCase()`, character by character (ASCII case
folding, which coincides with JavaScript's on the ASCII extensions the
format decision inspects). -/
def jsToLowerCase (s : String) : String :=
  String.mk (s.toList.map Char.toLower)

/-- `path.extname(v)` on a JavaScript value: Node throws a `TypeError` when
the argument is not a string. -/
def extnameJs (v : JsValue) : Except JsError String :=
  match v with
  | .str s => .ok (extname s)
  | _ => .error ⟨"path.extname: path must be a string"⟩

/-- The assignment `manifest.iconUrl = ""`: succeeds silently on objects and
arrays, throws a `TypeError` in strict mode (ES modules) on primitives and
nullish receivers.  The written property is never read again, so only the
throw/no-throw outcome is recorded. -/
def setIconUrlEmpty (manifest : JsValue) : Except JsError Unit :=
  match manifest with
  | .obj _ => .ok ()
  | .arr _ => .ok ()
  | .null => .error ⟨"Cannot set properties of null"⟩
  | .undefined => .error ⟨"Cannot set properties of undefined"⟩
  | _ => .error ⟨"Cannot create property iconUrl on a primitive"⟩

/-- `fetchAndStoreIcon(manifest, packageName)`: when the manifest declares a
truthy icon, ensure the icons directory, compute the lower-cased extension
(defaulting to `.png`), download the icon and either store the bytes
verbatim as `<name>.svg` or store the 32×32 PNG re-encoding as `<name>.png`.
All download/transform failures are caught after `localIconUrl` may already
have been assigned; `path.extname` on a non-string icon throws out of the
function, as does the `manifest.iconUrl` assignment on a primitive manifest
in the no-icon branch. -/
def fetchAndStoreIcon (env : Env) (manifest : JsValue) (packageName : String) :
    Except JsError JsValue × List Effect :=
  let icon := jsGet manifest "icon"
  if truthy icon then
    let remoteIconUrl := getRemoteIconUrl packageName manifest
    let dirEffs := if env.iconsDirExists then [] else [Effect.mkdirIcons]
    match extnameJs icon with
    | .error e => (.error e, dirEffs)
    | .ok ext0 =>
      let ext := strOr (jsToLowerCase ext0) ".png"
      let fetchEffs := dirEffs ++ [Effect.iconFetch remoteIconUrl]
      match env.iconResponse remoteIconUrl with
      | .throws => (.ok .undefined, fetchEffs)
      | .resp r =>
        if r.ok = false then (.ok .undefined, fetchEffs)
        else if ext == ".svg" then
          let localIconName := packageName ++ ".svg"
          let localIconPath := localIconDir ++ "/" ++ localIconName
          let localIconUrl := JsValue.str ("/icons/" ++ localIconName)
          match r.bytesResult with
          | none => (.ok localIconUrl, fetchEffs)
          | some bytes =>
            (.ok localIconUrl, fetchEffs ++ [Effect.writeSvgFile localIconPath bytes])
        else
          let localIconName := packageName ++ ".png"
          let localIconPath := localIconDir ++ "/" ++ localIconName
          let localIconUrl := JsValue.str ("/icons/" ++ localIconName)
          match r.bytesResult with
          | none => (.ok localIconUrl, fetchEffs)
          | some bytes =>
            if env.sharpOk bytes then
              (.ok localIconUrl,
               fetchEffs ++ [Effect.writePngFile localIconPath (SharpOutput.mk bytes 32 32)])
            else (.ok localIconUrl, fetchEffs)
  else
    match setIconUrlEmpty manifest with
    | .ok _ => (.ok .undefined, [])
    | .error e => (.error e, [])

/-! ## Per-package aggregation: `retrievePackageDetails` -/

/-- `retrievePackageDetails(pkg)`: fetch the manifest and the commit dates,
then build either the success record (manifest truthy) or the
`"No manifest.json"` error record.  Field defaults use `||`: `name` falls
back to `pkg.name`, the other manifest fields to the empty string. -/
def retrievePackageDetails (env : Env) (pkg : JsValue) :
    Except JsError JsValue × List Effect :=
  match jsGetE pkg "name" with
  | .error e => (.error e, [])
  | .ok nameVal =>
    let packageName := toJsString nameVal
    let manifestR := fetchManifest env packageName
    let commitsR := fetchCommitDates env packageName
    let manifest := manifestR.1
    let commitDates := commitsR.1
    if truthy manifest then
      match fetchAndStoreIcon env manifest packageName with
      | (.error e, iconEffs) => (.error e, manifestR.2 ++ commitsR.2 ++ iconEffs)
      | (.ok localIconUrl, iconEffs) =>
        (.ok (.obj
           [("name", jsOr (jsGet manifest "name") nameVal),
            ("id", jsOr (jsGet manifest "id") (.str "")),
            ("description", jsOr (jsGet manifest "description") (.str "")),
            ("author", jsOr (jsGet manifest "author") (.str "")),
            ("repo", jsOr (jsGet manifest "repo") (.str "")),
            ("version", jsOr (jsGet manifest "version") (.str "")),
            ("dir", nameVal),
            ("iconUrl", jsOr localIconUrl (.str "")),
            ("created_at", commitDates.created_at),
            ("last_updated", commitDates.last_updated)]),
         manifestR.2 ++ commitsR.2 ++ iconEffs)
    else
      (.ok (.obj
         [("name", nameVal),
          ("error", .str "No manifest.json"),
          ("iconUrl", .str ""),
          ("created_at", commitDates.created_at),
          ("last_updated", commitDates.last_updated)]),
       manifestR.2 ++ commitsR.2)

/-! ## Main loop and writer: `main` -/

/-- The loop guard `pkg.type !== "dir"`, as a predicate on the already-read
`type` value: strict equality with the string `"dir"`. -/
def typeIsDir (ty : JsValue) : Bool :=
  match ty with
  | .str s => s == "dir"
  | _ => false

/-- The loop guard applied to a listing entry (non-throwing form, for
stating which entries the aggregator keeps). -/
def entryIsDir (pkg : JsValue) : Bool :=
  typeIsDir (jsGet pkg "type")

/-- The early-stop test `maxItems && count >= maxItems` (an absent or zero
cap is falsy and never stops the loop). -/
def maxReached (maxItems : Option Nat) (count : Nat) : Bool :=
  match maxItems with
  | none => false
  | some m => !(m == 0) && decide (m ≤ count)

/-- `for..of` over the fetched payload: arrays iterate their elements,
strings iterate their characters, anything else throws a `TypeError`. -/
def iterateJs : JsValue → Except JsError (List JsValue)
  | .arr xs => .ok xs
  | .str s => .ok (s.toList.map (fun ch => JsValue.str (String.mk [ch])))
  | _ => .error ⟨"is not iterable"⟩

/-- The `for (const pkg of packages)` body of `main`, returning the records
accumulated from this point on (`count` counts records already pushed).
Non-`"dir"` entries are skipped; records whose `error` field is truthy are
logged and dropped; a thrown exception aborts the whole loop; the `--max`
cap breaks out once reached. -/
def processLoop (env : Env) : List JsValue → Nat →
    Except JsError (List JsValue) × List Effect
  | [], _ => (.ok [], [])
  | pkg :: rest, count =>
    match jsGetE pkg "type" with
    | .error e => (.error e, [])
    | .ok ty =>
      if typeIsDir ty = false then processLoop env rest count
      else
        match retrievePackageDetails env pkg with
        | (.error e, dEffs) => (.error e, dEffs)
        | (.ok details, dEffs) =>
          if truthy (jsGet details "error") then
            let tail := processLoop env rest count
            (tail.1, dEffs ++ tail.2)
          else
            if maxReached env.maxItems (count + 1) then (.ok [details], dEffs)
            else
              let tail := processLoop env rest (count + 1)
              (Except.map (fun l => details :: l) tail.1, dEffs ++ tail.2)

/-- The outcome of one run of the script: the process exit code, the output
file contents when the final write happened, the in-memory record list that
was serialized, and the effect trace. -/
structure RunResult where
  exitCode : Nat
  output : Option String
  records : List JsValue
  effects : List Effect

/-- `main()`: exit 1 when the output directory is missing; otherwise run the
pipeline inside one big try/catch — any uncaught error is logged and the
function returns normally (exit code 0, no output file).  On success the
record list is serialized with `JSON.stringify(results, null, 2)` and
written to the output path. -/
def main (env : Env) : RunResult :=
  if env.outputDirExists = false then RunResult.mk 1 none [] []
  else
    match fetchPackages env with
    | (.error _, cEffs) => RunResult.mk 0 none [] cEffs
    | (.ok data, cEffs) =>
      match iterateJs data with
      | .error _ => RunResult.mk 0 none [] cEffs
      | .ok pkgs =>
        match processLoop env pkgs 0 with
        | (.error _, lEffs) => RunResult.mk 0 none [] (cEffs ++ lEffs)
        | (.ok results, lEffs) =>
          let contents := (jsonStr (.arr results) 0).getD "undefined"
          RunResult.mk 0 (some contents) results
            (cEffs ++ lEffs ++ [Effect.writeOutput outputPath contents])

/-! ## Concrete fixture environments -/

/-- A listing entry of type `"dir"` named `alpha`. -/
def pkgAlpha : JsValue := .obj [("name", .str "alpha"), ("type", .str "dir")]

/-- A successful response whose JSON body is `v`. -/
def okJsonResponse (v : JsValue) : FetchOutcome :=
  .resp (JsResponse.mk true 200 "OK" none (some v) none)

/-- A 404 response with readable body text. -/
def notFoundResponse : FetchOutcome :=
  .resp (JsResponse.mk false 404 "Not Found" (some "nope") none none)

/-- Fixture for C1: one `dir` listing whose manifest fetch is a 404. -/
def envC1 : Env :=
  Env.mk true true none (okJsonResponse (.arr [pkgAlpha]))
    (fun _ => notFoundResponse) (fun _ => FetchOutcome.throws)
    (fun _ => FetchOutcome.throws) (fun _ => false)

/-! ## C1 -/

/-- C1 counterexample: in `envC1` the single listing entry has type `"dir"`
and its manifest fetch returns absent, yet the run's output is the empty
array `[]` — no record (in particular no `error == "No manifest.json"`
record) reaches the output, because `main` drops any record whose `error`
field is truthy. -/
theorem C1_counterexample :
    envC1.catalogResponse = okJsonResponse (.arr [pkgAlpha]) ∧
    jsGetE pkgAlpha "type" = Except.ok (JsValue.str "dir") ∧
    truthy (fetchManifest envC1 "alpha").1 = false ∧
    (main envC1).records = [] ∧
    (main envC1).output = some "[]" :=
  ⟨rfl, rfl, rfl, rfl, rfl⟩

/-- C1 (amended): for a listing entry whose manifest fetch returns absent,
`retrievePackageDetails` does build the record with
`error == "No manifest.json"` and `iconUrl == ""`, but `main` logs and skips
any record whose `error` field is truthy, so the final output sequence
contains no record for that package. -/
theorem C1_errorRecordDropped (env : Env) (pkg : JsValue) (rest : List JsValue)
    (count : Nat) (nameVal : JsValue)
    (hname : jsGetE pkg "name" = Except.ok nameVal)
    (habsent : truthy (fetchManifest env (toJsString nameVal)).1 = false) :
    (retrievePackageDetails env pkg).1 = Except.ok (JsValue.obj
      [("name", nameVal),
       ("error", JsValue.str "No manifest.json"),
       ("iconUrl", JsValue.str ""),
       ("created_at", (fetchCommitDates env (toJsString nameVal)).1.created_at),
       ("last_updated", (fetchCommitDates env (toJsString nameVal)).1.last_updated)]) ∧
    (jsGetE pkg "type" = Except.ok (JsValue.str "dir") →
      (processLoop env (pkg :: rest) count).1 = (processLoop env rest count).1) := by
  have hrec : (retrievePackageDetails env pkg).1 = Except.ok (JsValue.obj
      [("name", nameVal),
       ("error", JsValue.str "No manifest.json"),
       ("iconUrl", JsValue.str ""),
       ("created_at", (fetchCommitDates env (toJsString nameVal)).1.created_at),
       ("last_updated", (fetchCommitDates env (toJsString nameVal)).1.last_updated)]) := by
    simp only [retrievePackageDetails, hname]
    simp [habsent]
  refine ⟨hrec, fun htype => ?_⟩
  rcases hp : retrievePackageDetails env pkg with ⟨res, effs⟩
  have hres : res = Except.ok (JsValue.obj
      [("name", nameVal),
       ("error", JsValue.str "No manifest.json"),
       ("iconUrl", JsValue.str ""),
       ("created_at", (fetchCommitDates env (toJsString nameVal)).1.created_at),
       ("last_updated", (fetchCommitDates env (toJsString nameVal)).1.last_updated)]) := by
    have := hrec
    rw [hp] at this
    exact this
  subst hres
  simp only [processLoop, htype]
  simp [hp, typeIsDir, jsGet, lookupLast, truthy]

/-- C1 witness: the amended statement evaluated in `envC1` at the concrete
listing entry `pkgAlpha`. -/
theorem C1_witness :
    (retrievePackageDetails envC1 pkgAlpha).1 = Except.ok (JsValue.obj
      [("name", JsValue.str "alpha"),
       ("error", JsValue.str "No manifest.json"),
       ("iconUrl", JsValue.str ""),
       ("created_at", (fetchCommitDates envC1 "alpha").1.created_at),
       ("last_updated", (fetchCommitDates envC1 "alpha").1.last_updated)]) ∧
    (processLoop envC1 (pkgAlpha :: []) 0).1 = (processLoop envC1 [] 0).1 := by
  have h := C1_errorRecordDropped envC1 pkgAlpha [] 0 (JsValue.str "alpha") rfl rfl
  exact ⟨h.1, h.2 rfl⟩

/-! ## C2 -/

/-- Fixture for C2: the listing contains a `null` entry followed by a
well-formed `dir` entry whose manifest is present. -/
def envC2 : Env :=
  Env.mk true true none (okJsonResponse (.arr [JsValue.null, pkgAlpha]))
    (fun _ => okJsonResponse (.obj [("name", .str "Alpha")]))
    (fun _ => FetchOutcome.throws)
    (fun _ => FetchOutcome.throws) (fun _ => false)

/-- Fixture for C2, same as `envC2` but with the `null` listing entry
removed. -/
def envC2noNull : Env :=
  Env.mk true true none (okJsonResponse (.arr [pkgAlpha]))
    (fun _ => okJsonResponse (.obj [("name", .str "Alpha")]))
    (fun _ => FetchOutcome.throws)
    (fun _ => FetchOutcome.throws) (fun _ => false)

/-- C2 counterexample: processing the `null` listing entry throws
(`pkg.type` on `null`), and instead of being caught and skipped the
exception aborts the whole loop: no output file is written and no records
survive, even though the very same remaining entry produces a record (and an
output file) when the throwing entry is removed. -/
theorem C2_counterexample :
    envC2.catalogResponse = okJsonResponse (.arr [JsValue.null, pkgAlpha]) ∧
    (main envC2).output = none ∧
    (main envC2).records = [] ∧
    (main envC2).exitCode = 0 ∧
    (main envC2noNull).records.length = 1 ∧
    (main envC2noNull).output.isSome = true :=
  ⟨rfl, rfl, rfl, rfl, rfl, rfl⟩

/-- C2 (amended): an exception thrown while processing one listing entry is
not caught per item — it propagates to `main`'s top-level catch, so the loop
stops, no record list is produced and no output file is written; the process
still finishes with exit code 0. -/
theorem C2_perItemThrowAborts (env : Env) (data : JsValue) (pkgs : List JsValue)
    (e : JsError) (cEffs lEffs : List Effect)
    (hdir : env.outputDirExists = true)
    (hcat : fetchPackages env = (Except.ok data, cEffs))
    (hiter : iterateJs data = Except.ok pkgs)
    (hloop : processLoop env pkgs 0 = (Except.error e, lEffs)) :
    main env = RunResult.mk 0 none [] (cEffs ++ lEffs) := by
  unfold main
  rw [hdir, hcat]
  simp only [Bool.true_eq_false, if_false]
  rw [hiter]
  simp only [hloop]

/-- C2 witness: the amended statement evaluated in `envC2`, where the `null`
entry throws a `TypeError` reading its `type` property. -/
theorem C2_witness :
    main envC2 = RunResult.mk 0 none []
      [Effect.catalogFetch LOGSEQ_MARKETPLACE_PACKAGES_URL] :=
  C2_perItemThrowAborts envC2 (.arr [JsValue.null, pkgAlpha])
    [JsValue.null, pkgAlpha] ⟨"Cannot read properties of null"⟩
    [Effect.catalogFetch LOGSEQ_MARKETPLACE_PACKAGES_URL] [] rfl rfl rfl rfl

/-! ## C3 -/

/-- Fixture for C3: output directory exists, catalog fetch rejects. -/
def envC3 : Env :=
  Env.mk true true none FetchOutcome.throws (fun _ => FetchOutcome.throws)
    (fun _ => FetchOutcome.throws) (fun _ => FetchOutcome.throws) (fun _ => false)

/-- Fixture for C3: output directory missing. -/
def envC3noDir : Env :=
  Env.mk false true none FetchOutcome.throws (fun _ => FetchOutcome.throws)
    (fun _ => FetchOutcome.throws) (fun _ => FetchOutcome.throws) (fun _ => false)

/-- C3 counterexample: with the output directory present and a catalog fetch
that throws, the top-level error is caught and logged and the process
finishes with exit code 0 — not the non-zero status the claim requires for
an uncaught top-level error.  (No output file is written, as claimed.) -/
theorem C3_counterexample :
    envC3.catalogResponse = FetchOutcome.throws ∧
    envC3.outputDirExists = true ∧
    (main envC3).exitCode = 0 ∧
    (main envC3).output = none :=
  ⟨rfl, rfl, rfl, rfl⟩

/-- C3 (amended): the process exits non-zero only when the output directory
does not exist (then nothing at all is done); every other run — including
one whose top-level pipeline throws, e.g. on catalog-fetch failure — exits
with status 0 because `main` catches and merely logs the error.  A
catalog-fetch failure does mean no output file is written and no records
are produced. -/
theorem C3_exitCodes (env : Env) :
    (env.outputDirExists = true → (main env).exitCode = 0) ∧
    (env.outputDirExists = false → main env = RunResult.mk 1 none [] []) ∧
    (∀ err cEffs, fetchPackages env = (Except.error err, cEffs) →
      (main env).output = none ∧ (main env).records = []) := by
  refine ⟨?_, ?_, ?_⟩
  · intro hd
    unfold main
    rw [hd]
    simp only [Bool.true_eq_false, if_false]
    rcases hfp : fetchPackages env with ⟨res, cEffs⟩
    cases res with
    | error err => simp
    | ok data =>
      rcases hit : iterateJs data with e2 | pkgs
      · simp [hit]
      · rcases hpl : processLoop env pkgs 0 with ⟨r2, lEffs⟩
        cases r2 <;> simp [hit, hpl]
  · intro hd
    unfold main
    rw [hd]
    rfl
  · intro err cEffs hfp
    by_cases hd : env.outputDirExists = true
    · unfold main
      rw [hd, hfp]
      simp
    · have hd2 : env.outputDirExists = false := by simpa using hd
      unfold main
      rw [hd2]
      simp

/-- C3 witness: the amended statement evaluated at the two concrete
environments (catalog throws; output directory missing). -/
theorem C3_witness :
    (main envC3).exitCode = 0 ∧
    main envC3noDir = RunResult.mk 1 none [] [] ∧
    (main envC3).output = none ∧
    (main envC3).records = [] :=
  ⟨(C3_exitCodes envC3).1 rfl,
   (C3_exitCodes envC3noDir).2.1 rfl,
   ((C3_exitCodes envC3).2.2 CatalogError.fetchThrew
      [Effect.catalogFetch LOGSEQ_MARKETPLACE_PACKAGES_URL] rfl).1,
   ((C3_exitCodes envC3).2.2 CatalogError.fetchThrew
      [Effect.catalogFetch LOGSEQ_MARKETPLACE_PACKAGES_URL] rfl).2⟩

/-! ## C4 -/

/-- Fixture for C4: catalog responds 404 with readable body `"nope"`. -/
def envC4 : Env :=
  Env.mk true true none notFoundResponse (fun _ => FetchOutcome.throws)
    (fun _ => FetchOutcome.throws) (fun _ => FetchOutcome.throws) (fun _ => false)

/-- Fixture for C4: catalog responds 500 and the body read itself rejects. -/
def envC4noBody : Env :=
  Env.mk true true none
    (.resp (JsResponse.mk false 500 "Internal Server Error" none none none))
    (fun _ => FetchOutcome.throws) (fun _ => FetchOutcome.throws)
    (fun _ => FetchOutcome.throws) (fun _ => false)

/-- C4: on any non-OK catalog response `fetchPackages` fails, producing the
error output whose logged message carries the response status code and the
(best-effort) response body text, and throwing
`Error("Failed to fetch package list")`; when reading the body itself fails,
the placeholder `"(could not read error body)"` stands in for the body. -/
theorem C4_catalogErrorCarries (env : Env) (r : JsResponse)
    (hresp : env.catalogResponse = FetchOutcome.resp r)
    (hok : r.ok = false) :
    (fetchPackages env).1 = Except.error
      (CatalogError.notOk (catalogErrorMessage r) "Failed to fetch package list") ∧
    (toString r.status).toList <:+: (catalogErrorMessage r).toList ∧
    (catalogErrorBody r).toList <:+: (catalogErrorMessage r).toList ∧
    (∀ t, r.textResult = some t → catalogErrorBody r = t) ∧
    (r.textResult = none → catalogErrorBody r = "(could not read error body)") := by
  refine ⟨?_, ?_, ?_, ?_, ?_⟩
  · simp [fetchPackages, hresp, hok]
  · refine ⟨"Failed to fetch package list. Status: ".toList,
      (" " ++ r.statusText ++ ". Body: " ++ catalogErrorBody r).toList, ?_⟩
    simp [catalogErrorMessage, String.toList, String.data_append, List.append_assoc]
  · refine ⟨("Failed to fetch package list. Status: " ++ toString r.status ++ " "
      ++ r.statusText ++ ". Body: ").toList, [], ?_⟩
    simp [catalogErrorMessage, String.toList, String.data_append, List.append_assoc]
  · intro t ht
    simp [catalogErrorBody, ht]
  · intro ht
    simp [catalogErrorBody, ht]

/-- C4 witness: evaluated on a concrete 404 response with body `"nope"` and
on a concrete 500 response whose body read rejects. -/
theorem C4_witness :
    (fetchPackages envC4).1 = Except.error
      (CatalogError.notOk (catalogErrorMessage (JsResponse.mk false 404 "Not Found"
        (some "nope") none none)) "Failed to fetch package list") ∧
    (toString (404 : Nat)).toList <:+:
      (catalogErrorMessage (JsResponse.mk false 404 "Not Found"
        (some "nope") none none)).toList ∧
    catalogErrorBody (JsResponse.mk false 500 "Internal Server Error" none none none)
      = "(could not read error body)" :=
  ⟨(C4_catalogErrorCarries envC4 (JsResponse.mk false 404 "Not Found"
      (some "nope") none none) rfl rfl).1,
   (C4_catalogErrorCarries envC4 (JsResponse.mk false 404 "Not Found"
      (some "nope") none none) rfl rfl).2.1,
   (C4_catalogErrorCarries envC4noBody (JsResponse.mk false 500 "Internal Server Error"
      none none none) rfl rfl).2.2.2.2 rfl⟩

/-! ## C5 -/

/-- `Array.isArray`. -/
def isJsArray : JsValue → Bool
  | .arr _ => true
  | _ => false

/-- A commit entry with a committer date, as delivered by the commits
endpoint. -/
def commitObj (d : String) : JsValue :=
  .obj [("commit", .obj [("committer", .obj [("date", .str d)])])]

/-- Fixture for C5: three commits, newest first. -/
def envC5 : Env :=
  Env.mk true true none FetchOutcome.throws (fun _ => FetchOutcome.throws)
    (fun _ => okJsonResponse (.arr
      [commitObj "2024-08-29T01:37:02Z",
       commitObj "2024-08-28T00:00:00Z",
       commitObj "2024-08-27T16:41:22Z"]))
    (fun _ => FetchOutcome.throws) (fun _ => false)

/-- C5: `fetchCommitDates` never throws (it is a total function into
`CommitDates` by construction, every exception path of the source being
caught); any fetch rejection, non-OK status, malformed JSON, non-array or
empty payload yields both dates empty; and for a non-empty commits array
(newest first) with truthy committer dates, `last_updated` is the first
entry's committer date and `created_at` is the last entry's committer
date. -/
theorem C5_commitDates (env : Env) (packageName : String) :
    (env.commitsResponse packageName = FetchOutcome.throws →
      (fetchCommitDates env packageName).1 = emptyCommitDates) ∧
    (∀ r, env.commitsResponse packageName = FetchOutcome.resp r → r.ok = false →
      (fetchCommitDates env packageName).1 = emptyCommitDates) ∧
    (∀ r, env.commitsResponse packageName = FetchOutcome.resp r → r.ok = true →
      r.jsonResult = none →
      (fetchCommitDates env packageName).1 = emptyCommitDates) ∧
    (∀ r v, env.commitsResponse packageName = FetchOutcome.resp r → r.ok = true →
      r.jsonResult = some v → isJsArray v = false →
      (fetchCommitDates env packageName).1 = emptyCommitDates) ∧
    (∀ r, env.commitsResponse packageName = FetchOutcome.resp r → r.ok = true →
      r.jsonResult = some (JsValue.arr []) →
      (fetchCommitDates env packageName).1 = emptyCommitDates) ∧
    (∀ r c cs, env.commitsResponse packageName = FetchOutcome.resp r → r.ok = true →
      r.jsonResult = some (JsValue.arr (c :: cs)) →
      truthy (committerDate c) = true →
      truthy (committerDate ((cs.getLast?).getD c)) = true →
      (fetchCommitDates env packageName).1 =
        CommitDates.mk (committerDate ((cs.getLast?).getD c)) (committerDate c)) := by
  refine ⟨?_, ?_, ?_, ?_, ?_, ?_⟩
  · intro h
    simp [fetchCommitDates, h]
  · intro r h1 h2
    simp [fetchCommitDates, h1, h2]
  · intro r h1 h2 h3
    simp [fetchCommitDates, h1, h2, h3]
  · intro r v h1 h2 h3 h4
    cases v <;> simp_all [fetchCommitDates, isJsArray]
  · intro r h1 h2 h3
    simp [fetchCommitDates, h1, h2, h3]
  · intro r c cs h1 h2 h3 h4 h5
    simp [fetchCommitDates, h1, h2, h3, jsOr, h4, h5]

/-- C5 witness: three fabricated commits with known dates, newest first —
`last_updated` is the newest (first) date and `created_at` the oldest
(last) date. -/
theorem C5_witness :
    (fetchCommitDates envC5 "block-pin").1 =
      CommitDates.mk (JsValue.str "2024-08-27T16:41:22Z")
        (JsValue.str "2024-08-29T01:37:02Z") :=
  (C5_commitDates envC5 "block-pin").2.2.2.2.2
    (JsResponse.mk true 200 "OK" none (some (.arr
      [commitObj "2024-08-29T01:37:02Z",
       commitObj "2024-08-28T00:00:00Z",
       commitObj "2024-08-27T16:41:22Z"])) none)
    (commitObj "2024-08-29T01:37:02Z")
    [commitObj "2024-08-28T00:00:00Z", commitObj "2024-08-27T16:41:22Z"]
    rfl rfl rfl rfl rfl

/-! ## C6 -/

/-- Fixture for C6: every icon URL answers 200 with bytes `[1, 2, 3]`, and
`sharp` accepts any input. -/
def envC6 : Env :=
  Env.mk true true none FetchOutcome.throws (fun _ => FetchOutcome.throws)
    (fun _ => FetchOutcome.throws)
    (fun _ => FetchOutcome.resp (JsResponse.mk true 200 "OK" none none (some [1, 2, 3])))
    (fun _ => true)

/-- A manifest declaring an upper-case SVG icon. -/
def manifestSvg : JsValue := .obj [("icon", .str "logo.SVG")]

/-- A manifest declaring a JPEG icon. -/
def manifestJpeg : JsValue := .obj [("icon", .str "pic.jpeg")]

/-- C6: for a successfully downloaded icon, an (case-insensitively) `.svg`
extension stores the downloaded bytes unchanged at
`<iconsDir>/<packageName>.svg`, any other extension stores the
32×32-resized PNG re-encoding at `<iconsDir>/<packageName>.png`, and the
returned path is `/icons/<packageName>.<ext>` with the corresponding
extension. -/
theorem C6_iconFormatPolicy (env : Env) (manifest : JsValue)
    (packageName iconName : String) (r : JsResponse) (bytes : List Nat)
    (hicon : jsGet manifest "icon" = JsValue.str iconName)
    (hne : iconName ≠ "")
    (hdir : env.iconsDirExists = true)
    (hresp : env.iconResponse (getRemoteIconUrl packageName manifest) = FetchOutcome.resp r)
    (hok : r.ok = true)
    (hbytes : r.bytesResult = some bytes) :
    (jsToLowerCase (extname iconName) = ".svg" →
      fetchAndStoreIcon env manifest packageName =
        (Except.ok (JsValue.str ("/icons/" ++ packageName ++ ".svg")),
         [Effect.iconFetch (getRemoteIconUrl packageName manifest),
          Effect.writeSvgFile (localIconDir ++ "/" ++ packageName ++ ".svg") bytes])) ∧
    (jsToLowerCase (extname iconName) ≠ ".svg" → env.sharpOk bytes = true →
      fetchAndStoreIcon env manifest packageName =
        (Except.ok (JsValue.str ("/icons/" ++ packageName ++ ".png")),
         [Effect.iconFetch (getRemoteIconUrl packageName manifest),
          Effect.writePngFile (localIconDir ++ "/" ++ packageName ++ ".png")
            (SharpOutput.mk bytes 32 32)])) := by
  constructor
  · intro hsvg
    simp [fetchAndStoreIcon, hicon, truthy, hne, hdir, extnameJs, strOr, hsvg,
      hresp, hok, hbytes, beq_iff_eq, String.append_assoc]
  · intro hns hsharp
    by_cases hx : jsToLowerCase (extname iconName) = ""
    · simp [fetchAndStoreIcon, hicon, truthy, hne, hdir, extnameJs, strOr, hx,
        hresp, hok, hbytes, hsharp, beq_iff_eq, String.append_assoc]
    · simp [fetchAndStoreIcon, hicon, truthy, hne, hdir, extnameJs, strOr, hx,
        hns, hresp, hok, hbytes, hsharp, beq_iff_eq, String.append_assoc]

/-- C6 witness: a `logo.SVG` icon (upper-case extension) is stored verbatim
as `alpha.svg`, a `pic.jpeg` icon is stored as the 32×32 PNG re-encoding
`alpha.png`. -/
theorem C6_witness :
    fetchAndStoreIcon envC6 manifestSvg "alpha" =
      (Except.ok (JsValue.str "/icons/alpha.svg"),
       [Effect.iconFetch (getRemoteIconUrl "alpha" manifestSvg),
        Effect.writeSvgFile "public/icons/alpha.svg" [1, 2, 3]]) ∧
    fetchAndStoreIcon envC6 manifestJpeg "alpha" =
      (Except.ok (JsValue.str "/icons/alpha.png"),
       [Effect.iconFetch (getRemoteIconUrl "alpha" manifestJpeg),
        Effect.writePngFile "public/icons/alpha.png" (SharpOutput.mk [1, 2, 3] 32 32)]) :=
  ⟨(C6_iconFormatPolicy envC6 manifestSvg "alpha" "logo.SVG"
      (JsResponse.mk true 200 "OK" none none (some [1, 2, 3])) [1, 2, 3]
      rfl (by decide) rfl rfl rfl rfl).1 (by decide),
   (C6_iconFormatPolicy envC6 manifestJpeg "alpha" "pic.jpeg"
      (JsResponse.mk true 200 "OK" none none (some [1, 2, 3])) [1, 2, 3]
      rfl (by decide) rfl rfl rfl rfl).2 (by decide) rfl⟩

/-! ## C7 -/

/-- A manifest with an `id` but no `name` (and no icon). -/
def manifestNoName : JsValue := .obj [("id", .str "x")]

/-- Fixture for C7: one `dir` listing whose manifest lacks a `name`. -/
def envC7 : Env :=
  Env.mk true true none (okJsonResponse (.arr [pkgAlpha]))
    (fun _ => okJsonResponse manifestNoName)
    (fun _ => FetchOutcome.throws) (fun _ => FetchOutcome.throws) (fun _ => false)

/-- C7 counterexample: the manifest has no `name` field, yet the success
record's `name` is the listing entry's name `"alpha"`, not the empty string
— `name: manifest.name || pkg.name` falls back to the listing name, unlike
the other five fields. -/
theorem C7_counterexample :
    jsGet manifestNoName "name" = JsValue.undefined ∧
    (fetchManifest envC7 "alpha").1 = manifestNoName ∧
    (retrievePackageDetails envC7 pkgAlpha).1 = Except.ok (JsValue.obj
      [("name", .str "alpha"), ("id", .str "x"), ("description", .str ""),
       ("author", .str ""), ("repo", .str ""), ("version", .str ""),
       ("dir", .str "alpha"), ("iconUrl", .str ""), ("created_at", .str ""),
       ("last_updated", .str "")]) ∧
    JsValue.str "alpha" ≠ JsValue.str "" :=
  ⟨rfl, rfl, rfl, by intro h; injection h with h2; exact absurd h2 (by decide)⟩

/-- C7 (amended): the success record is built from the manifest fields with
`id`, `description`, `author`, `repo` and `version` each independently
defaulted to the empty string when absent, while `name` is defaulted to the
listing entry's name; `dir` is the listing entry's name and `iconUrl` is the
materialized local icon path or the empty string. -/
theorem C7_successRecordFields (env : Env) (pkg nameVal manifest licon : JsValue)
    (iconEffs : List Effect)
    (hname : jsGetE pkg "name" = Except.ok nameVal)
    (hman : (fetchManifest env (toJsString nameVal)).1 = manifest)
    (htruthy : truthy manifest = true)
    (hicon : fetchAndStoreIcon env manifest (toJsString nameVal) =
      (Except.ok licon, iconEffs)) :
    (retrievePackageDetails env pkg).1 = Except.ok (JsValue.obj
      [("name", jsOr (jsGet manifest "name") nameVal),
       ("id", jsOr (jsGet manifest "id") (JsValue.str "")),
       ("description", jsOr (jsGet manifest "description") (JsValue.str "")),
       ("author", jsOr (jsGet manifest "author") (JsValue.str "")),
       ("repo", jsOr (jsGet manifest "repo") (JsValue.str "")),
       ("version", jsOr (jsGet manifest "version") (JsValue.str "")),
       ("dir", nameVal),
       ("iconUrl", jsOr licon (JsValue.str "")),
       ("created_at", (fetchCommitDates env (toJsString nameVal)).1.created_at),
       ("last_updated", (fetchCommitDates env (toJsString nameVal)).1.last_updated)]) := by
  simp [retrievePackageDetails, hname, hman, htruthy, hicon]

/-- C7 witness: the amended statement evaluated in `envC7` — the record's
`name` has fallen back to the listing name `"alpha"`, `id` comes from the
manifest, and the remaining manifest fields default to `""`. -/
theorem C7_witness :
    (retrievePackageDetails envC7 pkgAlpha).1 = Except.ok (JsValue.obj
      [("name", jsOr (jsGet manifestNoName "name") (JsValue.str "alpha")),
       ("id", jsOr (jsGet manifestNoName "id") (JsValue.str "")),
       ("description", jsOr (jsGet manifestNoName "description") (JsValue.str "")),
       ("author", jsOr (jsGet manifestNoName "author") (JsValue.str "")),
       ("repo", jsOr (jsGet manifestNoName "repo") (JsValue.str "")),
       ("version", jsOr (jsGet manifestNoName "version") (JsValue.str "")),
       ("dir", JsValue.str "alpha"),
       ("iconUrl", jsOr JsValue.undefined (JsValue.str "")),
       ("created_at", (fetchCommitDates envC7 "alpha").1.created_at),
       ("last_updated", (fetchCommitDates envC7 "alpha").1.last_updated)]) :=
  C7_successRecordFields envC7 pkgAlpha (JsValue.str "alpha") manifestNoName
    JsValue.undefined [] rfl rfl rfl rfl

/-! ## C8 -/

/-- A listing entry of type `"file"`. -/
def pkgFile : JsValue := .obj [("name", .str "readme"), ("type", .str "file")]

/-- A listing entry whose `type` is the number `5`. -/
def pkgWeird : JsValue := .obj [("name", .str "w"), ("type", .num 5)]

/-- Fixture for C8: a listing mixing `dir`, `file` and numeric-typed
entries. -/
def envC8 : Env :=
  Env.mk true true none (okJsonResponse (.arr [pkgFile, pkgAlpha, pkgWeird]))
    (fun _ => okJsonResponse manifestNoName)
    (fun _ => FetchOutcome.throws) (fun _ => FetchOutcome.throws) (fun _ => false)

/-- C8: as long as no listing entry is nullish (a nullish entry would throw
on the `pkg.type` read), the aggregation loop is unchanged by deleting every
entry whose `type` is not the string `"dir"`: such entries contribute no
record and no fetch or write effect, and the remaining entries are processed
in listing order with identical results. -/
theorem C8_onlyDirEntries (env : Env) (pkgs : List JsValue) (count : Nat)
    (h : ∀ p ∈ pkgs, isNullish p = false) :
    processLoop env (pkgs.filter entryIsDir) count = processLoop env pkgs count := by
  induction pkgs generalizing count with
  | nil => rfl
  | cons pkg rest ih =>
    have hpkg : isNullish pkg = false := h pkg (List.mem_cons_self pkg rest)
    have hrest : ∀ p ∈ rest, isNullish p = false :=
      fun p hp => h p (List.mem_cons_of_mem pkg hp)
    have hget : jsGetE pkg "type" = Except.ok (jsGet pkg "type") := by
      cases pkg <;> simp_all [jsGetE, isNullish]
    by_cases hd : entryIsDir pkg = true
    · rw [List.filter_cons_of_pos hd]
      have hd2 : typeIsDir (jsGet pkg "type") = true := hd
      simp only [processLoop, hget, hd2, Bool.true_eq_false, if_false]
      rcases hr : retrievePackageDetails env pkg with ⟨res, dEffs⟩
      cases res with
      | error e => rfl
      | ok details =>
        by_cases herr : truthy (jsGet details "error") = true
        · simp [herr, ih count hrest]
        · have herr2 : truthy (jsGet details "error") = false := by simpa using herr
          by_cases hmax : maxReached env.maxItems (count + 1) = true
          · simp [herr2, hmax]
          · have hmax2 : maxReached env.maxItems (count + 1) = false := by simpa using hmax
            simp [herr2, hmax2, ih (count + 1) hrest]
    · have hd2 : typeIsDir (jsGet pkg "type") = false := by
        simpa [entryIsDir] using hd
      rw [List.filter_cons_of_neg (by simpa using hd)]
      have : processLoop env (pkg :: rest) count = processLoop env rest count := by
        simp only [processLoop, hget, hd2]
        rfl
      rw [this]
      exact ih count hrest

/-- C8 witness: the mixed concrete listing gives the same loop result as its
`dir`-only filtering. -/
theorem C8_witness :
    processLoop envC8 ([pkgFile, pkgAlpha, pkgWeird].filter entryIsDir) 0 =
      processLoop envC8 [pkgFile, pkgAlpha, pkgWeird] 0 :=
  C8_onlyDirEntries envC8 [pkgFile, pkgAlpha, pkgWeird] 0 (by decide)

/-! ## C9 -/

/-- Fixture for C9, first run. -/
def envC9a : Env :=
  Env.mk true true (some 2) (okJsonResponse (.arr [pkgAlpha, pkgFile]))
    (fun _ => okJsonResponse manifestNoName)
    (fun _ => FetchOutcome.throws) (fun _ => FetchOutcome.throws) (fun _ => false)

/-- Fixture for C9, second run, receiving the same remote data. -/
def envC9b : Env :=
  Env.mk true true (some 2) (okJsonResponse (.arr [pkgAlpha, pkgFile]))
    (fun _ => okJsonResponse manifestNoName)
    (fun _ => FetchOutcome.throws) (fun _ => FetchOutcome.throws) (fun _ => false)

/-- C9: the pipeline is deterministic in its inputs — two runs of the same
configured pipeline (same `--max` cap and filesystem state) that receive
identical catalog listings, manifest responses, commit histories and icon
bytes produce identical results, in particular byte-identical serialized
output documents. -/
theorem C9_deterministic (e1 e2 : Env)
    (h1 : e1.outputDirExists = e2.outputDirExists)
    (h2 : e1.iconsDirExists = e2.iconsDirExists)
    (h3 : e1.maxItems = e2.maxItems)
    (h4 : e1.catalogResponse = e2.catalogResponse)
    (h5 : e1.manifestResponse = e2.manifestResponse)
    (h6 : e1.commitsResponse = e2.commitsResponse)
    (h7 : e1.iconResponse = e2.iconResponse)
    (h8 : e1.sharpOk = e2.sharpOk) :
    main e1 = main e2 ∧ (main e1).output = (main e2).output := by
  have he : e1 = e2 := by
    cases e1
    cases e2
    simp_all
  rw [he]
  exact ⟨rfl, rfl⟩

/-- C9 witness: two runs over the same concrete remote data set give the
same run result (and in particular the same output bytes). -/
theorem C9_witness :
    main envC9a = main envC9b ∧ (main envC9a).output = (main envC9b).output :=
  C9_deterministic envC9a envC9b rfl rfl rfl rfl rfl rfl rfl rfl

/-! ## C10 -/

/-- Fixture for C10: the manifest endpoint answers 200 whose JSON body is
`null` — a falsy parse result despite a successful fetch. -/
def envC10 : Env :=
  Env.mk true true none (okJsonResponse (.arr [pkgAlpha]))
    (fun _ => okJsonResponse JsValue.null)
    (fun _ => FetchOutcome.throws) (fun _ => FetchOutcome.throws) (fun _ => false)

/-- C10: when the manifest response is successful but its JSON body parses
to a falsy value, `retrievePackageDetails` builds exactly the
`"No manifest.json"` error-record shape and performs only the manifest and
commit fetches — the icon materializer is never invoked (no icon fetch, no
directory creation, no file write), because manifest presence is decided by
the truthiness test `if (manifest)`, not by fetch success. -/
theorem C10_falsyManifestAbsent (env : Env) (pkg nameVal v : JsValue) (r : JsResponse)
    (hname : jsGetE pkg "name" = Except.ok nameVal)
    (hresp : env.manifestResponse (toJsString nameVal) = FetchOutcome.resp r)
    (hok : r.ok = true)
    (hjson : r.jsonResult = some v)
    (hfalsy : truthy v = false) :
    retrievePackageDetails env pkg =
      (Except.ok (JsValue.obj
        [("name", nameVal),
         ("error", JsValue.str "No manifest.json"),
         ("iconUrl", JsValue.str ""),
         ("created_at", (fetchCommitDates env (toJsString nameVal)).1.created_at),
         ("last_updated", (fetchCommitDates env (toJsString nameVal)).1.last_updated)]),
       [Effect.manifestFetch (manifestUrl (toJsString nameVal)),
        Effect.commitsFetch (commitsUrl (toJsString nameVal))]) := by
  simp [retrievePackageDetails, hname, fetchManifest, hresp, hok, hjson, hfalsy,
    fetchCommitDates]

/-- C10 witness: a 200 manifest response with body `null` yields the
concrete error record for `alpha` and exactly the two non-icon fetches. -/
theorem C10_witness :
    retrievePackageDetails envC10 pkgAlpha =
      (Except.ok (JsValue.obj
        [("name", JsValue.str "alpha"),
         ("error", JsValue.str "No manifest.json"),
         ("iconUrl", JsValue.str ""),
         ("created_at", (fetchCommitDates envC10 "alpha").1.created_at),
         ("last_updated", (fetchCommitDates envC10 "alpha").1.last_updated)]),
       [Effect.manifestFetch (manifestUrl "alpha"),
        Effect.commitsFetch (commitsUrl "alpha")]) :=
  C10_falsyManifestAbsent envC10 pkgAlpha (JsValue.str "alpha") JsValue.null
    (JsResponse.mk true 200 "OK" none (some JsValue.null) none) rfl rfl rfl rfl rfl

end LogseqMarketplace
